import Mathlib

/-!
Verification development for the DiscRec recording application.

The TypeScript frontend hooks (`useRecorder`, `useDiscord`,
`useKeyboardShortcuts`) are embedded shallowly: each React state update
becomes a field update on an explicit model record, and every backend
(`invoke`) call is passed in as an explicit `Except` result, since the
Tauri command layer is outside the frontend sources.  Components of the
Rust recording core that are not present in the sources (backend stop,
silence gate, duration watchdog, voice receiver) are modelled from the
specification, and are marked as such in their doc comments.
-/

namespace DiscRec

namespace Recorder

/-- Lifecycle state of the single-track recorder hook, from
`useRecorder.ts`: `export type RecordingState = "idle" | "recording" | "done"`. -/
inductive RecordingState
  | idle
  | recording
  | done
deriving DecidableEq

/-- The two repeating timers installed by a successful start:
`timerRef` ticks every 1000 ms incrementing `duration`, `pollRef` ticks
every 50 ms polling the status and storing its peak level. -/
structure PollTimers where
  elapsedIntervalMs : Nat
  levelIntervalMs : Nat
deriving DecidableEq

/-- Shape of the status object polled from the backend
(`get_status` in `useRecorder.ts`). -/
structure RecordingStatus where
  is_recording : Bool
  peak_level : Rat
deriving DecidableEq

/-- React state held by `useRecorder`. -/
structure Model where
  state : RecordingState
  filePath : Option String
  duration : Nat
  peakLevel : Rat
  error : Option String
  timers : Option PollTimers
deriving DecidableEq

/-- Initial hook state in `useRecorder`. -/
def initModel : Model :=
  { state := .idle, filePath := none, duration := 0, peakLevel := 0,
    error := none, timers := none }

/-- The `clearTimers` callback of `useRecorder`. -/
def clearTimers (m : Model) : Model := { m with timers := none }

/-- The `startRecording` callback of `useRecorder`; `r` is the result of
`invoke("start_recording")`.  On success: error cleared, file path stored,
state set to recording, duration reset, both timers installed.  On failure
the catch block only records the error message. -/
def startRecording (m : Model) (r : Except String String) : Model :=
  match r with
  | .ok path =>
      { m with error := none, filePath := some path, state := .recording,
               duration := 0,
               timers := some { elapsedIntervalMs := 1000, levelIntervalMs := 50 } }
  | .error e => { m with error := some e }

/-- The `stopRecording` callback of `useRecorder`; `r` is the result of
`invoke("stop_recording")`, typed `string | null`.  Timers are cleared
before the call; `if (path) setFilePath(path)` keeps the previous path on
`null` or the empty string (JavaScript truthiness); then the peak level is
zeroed and the state set to done.  On failure only the error is recorded
(timers are already cleared). -/
def stopRecording (m : Model) (r : Except String (Option String)) : Model :=
  match r with
  | .ok pathOpt =>
      let m1 := clearTimers m
      let m2 := match pathOpt with
        | some p => if p = "" then m1 else { m1 with filePath := some p }
        | none => m1
      { m2 with peakLevel := 0, state := .done }
  | .error e => { clearTimers m with error := some e }

/-- The `reset` callback of `useRecorder`: clears timers and restores every
state field to its initial value. -/
def reset (_m : Model) : Model := initModel

/-- Body of the 1000 ms `timerRef` callback: `setDuration((d) => d + 1)`. -/
def elapsedTick (m : Model) : Model := { m with duration := m.duration + 1 }

/-- Body of the 50 ms `pollRef` callback: polls `get_status` and stores the
returned peak level. -/
def levelTick (m : Model) (status : RecordingStatus) : Model :=
  { m with peakLevel := status.peak_level }

/-- One observable action on the recorder hook, labelled by the backend
outcome it is given. -/
inductive Action
  | startOk (path : String)
  | startErr (e : String)
  | stopOk (p : Option String)
  | stopErr (e : String)
  | reset

/-- Step function of the recorder hook under one action. -/
def step (m : Model) (a : Action) : Model :=
  match a with
  | .startOk p => startRecording m (.ok p)
  | .startErr e => startRecording m (.error e)
  | .stopOk p => stopRecording m (.ok p)
  | .stopErr e => stopRecording m (.error e)
  | .reset => reset m

/-- Statement of claim C4 as written, on the lifecycle machine of the code:
a session never returns to the idle state (one conjunct of the claimed
machine Idle → Capturing → Stopping → Done). -/
def claimC4NeverBackToIdle : Prop :=
  ∀ (m : Model) (a : Action),
    (step m a).state = RecordingState.idle → m.state = RecordingState.idle

end Recorder

namespace Discord

/-- Guild descriptor received from `discord_list_guilds` (`useDiscord.ts`). -/
structure GuildInfo where
  id : String
  name : String
deriving DecidableEq

/-- Voice-channel descriptor received from `discord_list_channels`. -/
structure VoiceChannelInfo where
  id : String
  name : String
  guild_id : String
deriving DecidableEq

/-- Lifecycle state of the Discord hook, from `useDiscord.ts`:
`export type DiscordState = "disconnected" | "connected" | "recording" | "done"`. -/
inductive DiscordState
  | disconnected
  | connected
  | recording
  | done
deriving DecidableEq

/-- Audio format selector from `FormatSelector.tsx`:
`export type AudioFormat = "wav" | "flac" | "mp3"`. -/
inductive AudioFormat
  | wav
  | flac
  | mp3
deriving DecidableEq

/-- Shape of the status object polled from `discord_get_status`. -/
structure DiscordStatus where
  connected : Bool
  recording : Bool
  peak_level : Rat
deriving DecidableEq

/-- React state held by `useDiscord`. -/
structure Model where
  state : DiscordState
  guilds : List GuildInfo
  channels : List VoiceChannelInfo
  selectedGuild : Option String
  selectedChannel : Option String
  peakLevel : Rat
  duration : Nat
  savedPaths : List String
  error : Option String
  connecting : Bool
  timers : Option Recorder.PollTimers
deriving DecidableEq

/-- JavaScript truthiness of a nullable string: `null` and `""` are falsy. -/
def truthyStr : Option String → Bool
  | none => false
  | some s => !s.isEmpty

/-- The `clearTimers` callback of `useDiscord`. -/
def clearTimers (m : Model) : Model := { m with timers := none }

/-- The `startRecording` callback of `useDiscord`; `r` is the result of
`invoke("discord_start_recording")`.  A missing guild or channel selection
short-circuits with an error message and no backend call; on success the
state becomes recording, the duration resets and both timers are
installed; on failure only the error message is recorded. -/
def startRecording (m : Model) (_fmt : AudioFormat) (r : Except String Unit) :
    Model :=
  if !truthyStr m.selectedGuild || !truthyStr m.selectedChannel then
    { m with error := some "Select a server and voice channel first" }
  else
    match r with
    | .ok _ =>
        { m with error := none, state := .recording, duration := 0,
                 timers := some { elapsedIntervalMs := 1000, levelIntervalMs := 50 } }
    | .error e => { m with error := some e }

/-- The `stopRecording` callback of `useDiscord`; `r` is the result of
`invoke<string[]>("discord_stop_recording")`.  Timers are cleared before
the call; on success the returned paths are stored, the peak level zeroed
and the state set to done. -/
def stopRecording (m : Model) (r : Except String (List String)) : Model :=
  match r with
  | .ok paths =>
      { clearTimers m with savedPaths := paths, peakLevel := 0, state := .done }
  | .error e => { clearTimers m with error := some e }

/-- The `reset` callback of `useDiscord`: clears timers, returns the state
to connected, and clears saved paths, duration, peak level and error.  It
makes no backend call and touches no other field. -/
def reset (m : Model) : Model :=
  { clearTimers m with
      state := .connected, savedPaths := [], duration := 0,
      peakLevel := 0, error := none }

/-- The `disconnect` callback of `useDiscord`; `r` is the result of
`invoke("discord_disconnect")`.  On success the state becomes disconnected
and the guild list, channel list, selections and peak level are cleared. -/
def disconnect (m : Model) (r : Except String Unit) : Model :=
  match r with
  | .ok _ =>
      { clearTimers m with
          state := .disconnected, guilds := [], channels := [],
          selectedGuild := none, selectedChannel := none, peakLevel := 0 }
  | .error e => { clearTimers m with error := some e }

/-- Body of the 1000 ms `timerRef` callback in `useDiscord`. -/
def elapsedTick (m : Model) : Model := { m with duration := m.duration + 1 }

/-- Body of the 50 ms `pollRef` callback in `useDiscord`: polls
`discord_get_status` and stores the returned peak level. -/
def levelTick (m : Model) (status : DiscordStatus) : Model :=
  { m with peakLevel := status.peak_level }

end Discord

namespace Shortcuts

/-- A keydown event as observed by `useKeyboardShortcuts.ts`. -/
structure KeyEvent where
  key : String
  ctrlKey : Bool
  metaKey : Bool
  shiftKey : Bool
  altKey : Bool
  targetTag : String
deriving DecidableEq

/-- Shortcut configuration (`ShortcutConfig` in `useKeyboardShortcuts.ts`). -/
structure ShortcutConfig where
  record : String
  stop : String
deriving DecidableEq

/-- Default shortcuts: `{ record: "ctrl+r", stop: "ctrl+s" }`. -/
def defaultShortcuts : ShortcutConfig := { record := "ctrl+r", stop := "ctrl+s" }

/-- JavaScript `toLowerCase` on a string, character by character. -/
def lowerStr (s : String) : String := String.mk (s.data.map Char.toLower)

/-- JavaScript `trim`: strip whitespace from both ends. -/
def trimStr (s : String) : String :=
  String.mk
    (((s.data.dropWhile Char.isWhitespace).reverse.dropWhile
        Char.isWhitespace).reverse)

/-- JavaScript `split("+")` on the underlying character list. -/
def splitPlus : List Char → List (List Char)
  | [] => [[]]
  | c :: rest =>
      let r := splitPlus rest
      if c = '+' then [] :: r
      else
        match r with
        | [] => [[c]]
        | h :: t => (c :: h) :: t

/-- The `matchesShortcut` helper: lower-cases and splits the shortcut on
`+`, trims each part, takes the last part as the key, and requires each
named modifier (ctrl/cmd/meta fold together) before comparing the
lower-cased event key. -/
def matchesShortcut (e : KeyEvent) (shortcut : String) : Bool :=
  let parts :=
    (splitPlus (lowerStr shortcut).data).map (fun cs => trimStr (String.mk cs))
  let key := parts.getLastD ""
  let needCtrl := parts.contains "ctrl" || parts.contains "cmd" || parts.contains "meta"
  let needShift := parts.contains "shift"
  let needAlt := parts.contains "alt"
  if needCtrl && !(e.ctrlKey || e.metaKey) then false
  else if needShift && !e.shiftKey then false
  else if needAlt && !e.altKey then false
  else lowerStr e.key == key

/-- Handler actions that `handleKeyDown` can invoke. -/
inductive SAction
  | record
  | stop
deriving DecidableEq

/-- Event targets ignored by the handler (typing in a form field). -/
def isFormTag (tag : String) : Bool :=
  tag == "INPUT" || tag == "TEXTAREA" || tag == "SELECT"

/-- The `handleKeyDown` listener of `useKeyboardShortcuts`, returning the
handler invocations it performs, in order.  When `disabled` is set the
effect registers no listener at all, so no action fires. -/
def handleKeyDown (disabled : Bool) (cfg : ShortcutConfig)
    (isRecording canRecord : Bool) (e : KeyEvent) : List SAction :=
  if disabled then []
  else if isFormTag e.targetTag then []
  else
    (if matchesShortcut e cfg.record && (!isRecording && canRecord) then
      [SAction.record] else [])
    ++ (if matchesShortcut e cfg.stop && isRecording then [SAction.stop] else [])
    ++ (if e.key == "Escape" && isRecording then [SAction.stop] else [])

end Shortcuts

namespace Backend

/-- Modelled from the spec: the Rust recording core behind the
`stop_recording` and `discord_stop_recording` commands is not among the
frontend sources.  A track records how many times its encoder has been
finalized, per the spec contract that `finalize()` is "idempotent — a
second call is a no-op returning the same path". -/
structure Track where
  path : String
  finalizeCount : Nat
deriving DecidableEq

/-- Modelled from the spec: finalizing a track closes its encoder once. -/
def finalizeTrack (t : Track) : Track :=
  { t with finalizeCount := t.finalizeCount + 1 }

/-- Modelled from the spec: a recording session owns one track per
recorded stream (one anonymous track in system mode, one per participant
in voice mode) and a capturing flag. -/
structure Session where
  capturing : Bool
  tracks : List Track
deriving DecidableEq

/-- Modelled from the spec: the backend stop request, per "Stop is
idempotent: issuing it twice must not double-finalize or panic" and
"Stopping → Done: once every track's encoder has finalized successfully;
final file path(s) become the session's result".  A stop while capturing
finalizes every track exactly once and returns their paths; a stop on an
already-stopped session finalizes nothing and returns the same paths
without error. -/
def stop (s : Session) : Session × Except String (List String) :=
  if s.capturing then
    let ts := s.tracks.map finalizeTrack
    ({ capturing := false, tracks := ts }, Except.ok (ts.map Track.path))
  else
    (s, Except.ok (s.tracks.map Track.path))

end Backend

namespace Gate

/-- Modelled from the spec: per-track SilenceGate state
`{AwaitingSound, Passing, Buffering(pending frames)}`. -/
inductive GateState
  | awaitingSound
  | passing
  | buffering (pending : List (List Rat))
deriving DecidableEq

/-- Modelled from the spec: the SilenceGate decorator over an encoder
sink; `written` is the sequence of blocks handed to the wrapped encoder. -/
structure SilenceGate where
  threshold : Rat
  gstate : GateState
  written : List (List Rat)
deriving DecidableEq

/-- Peak absolute amplitude of one block of samples. -/
def blockPeak (b : List Rat) : Rat :=
  b.foldr (fun s acc => max |s| acc) 0

/-- Modelled from the spec, section 4.3: leading below-threshold blocks
are dropped; the first at-or-above-threshold block moves to Passing and is
written; in Passing a below-threshold block moves to Buffering and is
held; further below-threshold blocks accumulate in the buffer; an
at-or-above-threshold block flushes the whole buffer and then the new
block, returning to Passing. -/
def write (g : SilenceGate) (b : List Rat) : SilenceGate :=
  match g.gstate with
  | .awaitingSound =>
      if g.threshold ≤ blockPeak b then
        { g with gstate := .passing, written := g.written ++ [b] }
      else g
  | .passing =>
      if g.threshold ≤ blockPeak b then
        { g with written := g.written ++ [b] }
      else
        { g with gstate := .buffering [b] }
  | .buffering pending =>
      if g.threshold ≤ blockPeak b then
        { g with gstate := .passing, written := g.written ++ pending ++ [b] }
      else
        { g with gstate := .buffering (pending ++ [b]) }

/-- Modelled from the spec: "Finalize while Buffering: buffered blocks are
discarded (never written)" — finalization emits exactly the blocks already
written, dropping any pending buffer. -/
def finalize (g : SilenceGate) : List (List Rat) := g.written

end Gate

namespace Watchdog

/-- Modelled from the spec: the duration watchdog is "checked against
wall-clock time on a bounded poll interval, not busy-spun".  The session
accumulates elapsed wall-clock time and written audio while capturing an
unbounded block stream, and stops at the first poll at or past the
configured maximum duration. -/
structure Session where
  maxDurMs : Nat
  pollMs : Nat
  elapsedMs : Nat
  writtenMs : Nat
  stopped : Bool
deriving DecidableEq

/-- Modelled from the spec: one watchdog poll.  While the session runs,
one poll interval of wall-clock time passes and the same span of audio is
encoded; the watchdog then stops the session if the elapsed time has
reached the maximum duration.  After the stop nothing more is written. -/
def poll (s : Session) : Session :=
  if s.stopped then s
  else
    let e := s.elapsedMs + s.pollMs
    let w := s.writtenMs + s.pollMs
    if s.maxDurMs ≤ e then
      { s with elapsedMs := e, writtenMs := w, stopped := true }
    else
      { s with elapsedMs := e, writtenMs := w }

/-- Iterated watchdog polls. -/
def run (s : Session) : Nat → Session
  | 0 => s
  | n + 1 => poll (run s n)

/-- A freshly started session with a configured limit and poll interval. -/
def fresh (maxDur pollMs : Nat) : Session :=
  { maxDurMs := maxDur, pollMs := pollMs, elapsedMs := 0, writtenMs := 0,
    stopped := false }

end Watchdog

namespace Voice

/-- Modelled from the spec: one encoded packet of the multiplexed voice
stream, tagged with the sending participant's numeric identity (SSRC) and
a sequence number; `payload` is the decoded PCM, or `none` when the packet
is corrupt and decoding fails. -/
structure VoicePacket where
  ssrc : Nat
  seq : Nat
  payload : Option (List Rat)
deriving DecidableEq

/-- Nominal samples per voice frame (20 ms at 48 kHz). -/
def frameSamples : Nat := 960

/-- A silence-filled frame of nominal duration. -/
def silenceFrame : List Rat := List.replicate frameSamples 0

/-- Modelled from the spec: decoding one packet; a decode failure yields a
silence frame of the expected frame duration so the track timeline stays
continuous. -/
def decodePacket (p : VoicePacket) : List Rat :=
  match p.payload with
  | some pcm => pcm
  | none => silenceFrame

/-- Modelled from the spec: "Packet loss/gaps are bridged with
silence-filled frames matched to the expected frame duration" — a jump in
sequence numbers inserts one silence frame per missing packet. -/
def fillFrames : Nat → List VoicePacket → List (List Rat)
  | _, [] => []
  | expected, p :: rest =>
      List.replicate (p.seq - expected) silenceFrame
        ++ decodePacket p :: fillFrames (p.seq + 1) rest

/-- Modelled from the spec: the demultiplexer routes each packet to the
track of its sending participant. -/
def participantPackets (stream : List VoicePacket) (i : Nat) :
    List VoicePacket :=
  stream.filter (fun p => p.ssrc == i)

/-- Modelled from the spec: a participant's track is lazily created on the
first packet and decoded independently of every other participant's
packets. -/
def participantTrack (stream : List VoicePacket) (i : Nat) :
    List (List Rat) :=
  match participantPackets stream i with
  | [] => []
  | p :: rest => decodePacket p :: fillFrames (p.seq + 1) rest

/-- The finalized file contents of a participant's track: its frames in
order. -/
def trackFile (stream : List VoicePacket) (i : Nat) : List Rat :=
  (participantTrack stream i).flatten

/-- Duration of a finalized track, in samples. -/
def trackDurationSamples (stream : List VoicePacket) (i : Nat) : Nat :=
  (trackFile stream i).length

/-- A run `ys` arises from `xs` by injecting decode failures or packet
loss into participant `i`'s stream only: any packet of `i` may have its
payload corrupted (decode failure) or be dropped (packet loss); every
other packet is kept verbatim in order. -/
inductive InjectFault (i : Nat) : List VoicePacket → List VoicePacket → Prop
  | nil : InjectFault i [] []
  | keep (p : VoicePacket) {xs ys : List VoicePacket} :
      InjectFault i xs ys → InjectFault i (p :: xs) (p :: ys)
  | corrupt (p : VoicePacket) {xs ys : List VoicePacket} :
      p.ssrc = i → InjectFault i xs ys →
      InjectFault i (p :: xs) ({ p with payload := none } :: ys)
  | drop (p : VoicePacket) {xs ys : List VoicePacket} :
      p.ssrc = i → InjectFault i xs ys → InjectFault i (p :: xs) ys

end Voice

/-- A concrete connected Discord model with a guild and channel selected,
used to instantiate theorems about the voice-mode hook. -/
def sampleConnected : Discord.Model :=
  { state := .connected,
    guilds := [{ id := "g1", name := "Guild One" }],
    channels := [{ id := "c1", name := "General", guild_id := "g1" }],
    selectedGuild := some "g1", selectedChannel := some "c1",
    peakLevel := 0, duration := 0, savedPaths := [], error := none,
    connecting := false, timers := none }

/-- A concrete capturing backend session with two fresh tracks. -/
def sampleSession : Backend.Session :=
  { capturing := true,
    tracks := [{ path := "alice.wav", finalizeCount := 0 },
               { path := "bob.wav", finalizeCount := 0 }] }

/-- A concrete capturing backend session with a single fresh track. -/
def sampleSingleSession : Backend.Session :=
  { capturing := true,
    tracks := [{ path := "discord-2026-02-01_120000.wav", finalizeCount := 0 }] }

/-- A silence gate at the default 0.005 threshold, awaiting sound. -/
def sampleAwaitingGate : Gate.SilenceGate :=
  { threshold := 1 / 200, gstate := .awaitingSound, written := [] }

/-- A silence gate at the default threshold, passing, with one block
already written. -/
def samplePassingGate : Gate.SilenceGate :=
  { threshold := 1 / 200, gstate := .passing, written := [[1 / 2]] }

/-- A silence gate at the default threshold, buffering one silent block
after having written one block. -/
def sampleBufferingGate : Gate.SilenceGate :=
  { threshold := 1 / 200, gstate := .buffering [[0]], written := [[1 / 2]] }

/-- A concrete voice run with three participants. -/
def sampleRunA : List Voice.VoicePacket :=
  [{ ssrc := 1, seq := 0, payload := some [1 / 2, 1 / 2] },
   { ssrc := 2, seq := 0, payload := some [1 / 4] },
   { ssrc := 1, seq := 1, payload := some [1 / 3] },
   { ssrc := 3, seq := 0, payload := some [1 / 5] }]

/-- The same voice run with a decode failure injected into participant 2's
only packet. -/
def sampleRunB : List Voice.VoicePacket :=
  [{ ssrc := 1, seq := 0, payload := some [1 / 2, 1 / 2] },
   { ssrc := 2, seq := 0, payload := none },
   { ssrc := 1, seq := 1, payload := some [1 / 3] },
   { ssrc := 3, seq := 0, payload := some [1 / 5] }]

/-- A plain Escape keydown outside any form field. -/
def escEvent : Shortcuts.KeyEvent :=
  { key := "Escape", ctrlKey := false, metaKey := false, shiftKey := false,
    altKey := false, targetTag := "BODY" }

/-- A Ctrl+R keydown outside any form field. -/
def ctrlREvent : Shortcuts.KeyEvent :=
  { key := "r", ctrlKey := true, metaKey := false, shiftKey := false,
    altKey := false, targetTag := "BODY" }

/-- A Ctrl+S keydown outside any form field. -/
def ctrlSEvent : Shortcuts.KeyEvent :=
  { key := "s", ctrlKey := true, metaKey := false, shiftKey := false,
    altKey := false, targetTag := "BODY" }

/-- Claim C4, as stated, fails on the code: `RecordingState` in
`useRecorder.ts` has only the states idle, recording and done — there is
no Stopping and no Failed state — and the `reset` callback returns the
state machine to idle from the done state, so a session does return to
Idle. -/
theorem C4_counterexample : ¬ Recorder.claimC4NeverBackToIdle := by
  intro h
  have hc := h
    { state := .done, filePath := none, duration := 0, peakLevel := 0,
      error := none, timers := none } Recorder.Action.reset rfl
  exact absurd hc (by decide)

/-- Claim C4 (amended): the recorder lifecycle has exactly the three
states idle, recording and done; a successful start moves any state to
recording, a successful stop moves any state to done (directly, with no
intermediate Stopping state), reset returns any state to idle, and a
failed start or stop leaves the state unchanged (the error is surfaced in
a separate error field, not a Failed state). -/
theorem C4_amended_machine (m : Recorder.Model) (a : Recorder.Action) :
    (Recorder.step m a).state =
      match a with
      | .startOk _ => Recorder.RecordingState.recording
      | .startErr _ => m.state
      | .stopOk _ => Recorder.RecordingState.done
      | .stopErr _ => m.state
      | .reset => Recorder.RecordingState.idle := by
  cases a <;> rfl

/-- A successful stop always leaves the recorder hook in the done state. -/
theorem recorder_stopOk_state (m : Recorder.Model) (p : Option String) :
    (Recorder.stopRecording m (Except.ok p)).state
        = Recorder.RecordingState.done := rfl

/-- A successful stop never records an error in the recorder hook. -/
theorem recorder_stopOk_error (m : Recorder.Model) (p : Option String) :
    (Recorder.stopRecording m (Except.ok p)).error = m.error := by
  cases p with
  | none => rfl
  | some s =>
      by_cases h : s = "" <;>
        simp [Recorder.stopRecording, Recorder.clearTimers, h]

/-- A successful stop leaves the recorder duration counter unchanged. -/
theorem recorder_stopOk_duration (m : Recorder.Model) (p : Option String) :
    (Recorder.stopRecording m (Except.ok p)).duration = m.duration := by
  cases p with
  | none => rfl
  | some s =>
      by_cases h : s = "" <;>
        simp [Recorder.stopRecording, Recorder.clearTimers, h]

/-- A successful stop returning a non-empty path stores it as the final
file path of the recorder hook. -/
theorem recorder_stopOk_filePath (m : Recorder.Model) (p : String)
    (h : p ≠ "") :
    (Recorder.stopRecording m (Except.ok (some p))).filePath = some p := by
  simp [Recorder.stopRecording, Recorder.clearTimers, h]

/-- Claim C5: when the start request fails, `useRecorder.startRecording`
records the error message synchronously and the session never leaves
idle — the state stays idle, no file path is created, and the duration and
timers are untouched. -/
theorem C5_start_error_stays_idle (m : Recorder.Model) (e : String)
    (hs : m.state = Recorder.RecordingState.idle)
    (hf : m.filePath = none) :
    (Recorder.startRecording m (Except.error e)).state
        = Recorder.RecordingState.idle ∧
    (Recorder.startRecording m (Except.error e)).filePath = none ∧
    (Recorder.startRecording m (Except.error e)).error = some e ∧
    (Recorder.startRecording m (Except.error e)).duration = m.duration ∧
    (Recorder.startRecording m (Except.error e)).timers = m.timers := by
  exact ⟨hs, hf, rfl, rfl, rfl⟩

/-- Witness for C5 at the initial model and the DeviceUnavailable error
message. -/
theorem C5_witness :
    (Recorder.startRecording Recorder.initModel
        (Except.error "DeviceUnavailable")).state
        = Recorder.RecordingState.idle ∧
    (Recorder.startRecording Recorder.initModel
        (Except.error "DeviceUnavailable")).filePath = none ∧
    (Recorder.startRecording Recorder.initModel
        (Except.error "DeviceUnavailable")).error = some "DeviceUnavailable" ∧
    (Recorder.startRecording Recorder.initModel
        (Except.error "DeviceUnavailable")).duration
        = Recorder.initModel.duration ∧
    (Recorder.startRecording Recorder.initModel
        (Except.error "DeviceUnavailable")).timers
        = Recorder.initModel.timers :=
  C5_start_error_stays_idle Recorder.initModel "DeviceUnavailable" rfl rfl

/-- Claim C10: `useDiscord.reset` leaves the machine connected — the guild
list, channel list, selected guild, selected channel and connecting flag
are untouched — while saved paths, duration, peak level, error and timers
are cleared; it makes no backend call.  Only `disconnect` tears the
connection down, setting the state to disconnected and clearing the guild
and channel lists and selections. -/
theorem C10_reset_keeps_connection (m : Discord.Model) :
    (Discord.reset m).state = Discord.DiscordState.connected ∧
    (Discord.reset m).guilds = m.guilds ∧
    (Discord.reset m).channels = m.channels ∧
    (Discord.reset m).selectedGuild = m.selectedGuild ∧
    (Discord.reset m).selectedChannel = m.selectedChannel ∧
    (Discord.reset m).connecting = m.connecting ∧
    (Discord.reset m).savedPaths = [] ∧
    (Discord.reset m).duration = 0 ∧
    (Discord.reset m).peakLevel = 0 ∧
    (Discord.reset m).error = none ∧
    (Discord.reset m).timers = none ∧
    (Discord.disconnect m (Except.ok ())).state
        = Discord.DiscordState.disconnected ∧
    (Discord.disconnect m (Except.ok ())).guilds = [] ∧
    (Discord.disconnect m (Except.ok ())).channels = [] ∧
    (Discord.disconnect m (Except.ok ())).selectedGuild = none ∧
    (Discord.disconnect m (Except.ok ())).selectedChannel = none :=
  ⟨rfl, rfl, rfl, rfl, rfl, rfl, rfl, rfl, rfl, rfl, rfl, rfl, rfl, rfl,
   rfl, rfl⟩

/-- Claim C1: stop is idempotent.  Stopping a capturing session twice
finalizes each track's encoder exactly once, the second stop leaves the
file set unchanged and returns the same paths without error, and on the
frontend a second `stopRecording` call likewise completes with no error
and the state still done. -/
theorem C1_stop_idempotent (s : Backend.Session) (m : Recorder.Model)
    (hcap : s.capturing = true)
    (h0 : ∀ t ∈ s.tracks, t.finalizeCount = 0)
    (he : m.error = none) (p q : Option String) :
    (((Backend.stop (Backend.stop s).1).1).tracks.all
        (fun t => t.finalizeCount == 1)) = true ∧
    ((Backend.stop (Backend.stop s).1).1).tracks
        = ((Backend.stop s).1).tracks ∧
    (Backend.stop (Backend.stop s).1).2
        = Except.ok (((Backend.stop s).1).tracks.map Backend.Track.path) ∧
    (Recorder.stopRecording (Recorder.stopRecording m (Except.ok p))
        (Except.ok q)).error = none ∧
    (Recorder.stopRecording (Recorder.stopRecording m (Except.ok p))
        (Except.ok q)).state = Recorder.RecordingState.done := by
  have h1 : (Backend.stop s).1
      = { capturing := false, tracks := s.tracks.map Backend.finalizeTrack } := by
    simp [Backend.stop, hcap]
  have h2 : Backend.stop (Backend.stop s).1
      = ((Backend.stop s).1,
         Except.ok (((Backend.stop s).1).tracks.map Backend.Track.path)) := by
    rw [h1]; rfl
  refine ⟨?_, ?_, ?_, ?_, ?_⟩
  · rw [h2, h1]
    simp only [List.all_eq_true]
    intro t ht
    obtain ⟨t', ht', rfl⟩ := List.mem_map.mp ht
    simp [Backend.finalizeTrack, h0 t' ht']
  · rw [h2]
  · rw [h2]
  · rw [recorder_stopOk_error, recorder_stopOk_error, he]
  · exact recorder_stopOk_state _ _


/-- Witness for C1: a capturing two-track session stopped twice, and the
frontend hook stopped twice from its initial state. -/
theorem C1_witness :
    (((Backend.stop (Backend.stop sampleSession).1).1).tracks.all
        (fun t => t.finalizeCount == 1)) = true ∧
    ((Backend.stop (Backend.stop sampleSession).1).1).tracks
        = ((Backend.stop sampleSession).1).tracks ∧
    (Backend.stop (Backend.stop sampleSession).1).2
        = Except.ok
            (((Backend.stop sampleSession).1).tracks.map Backend.Track.path) ∧
    (Recorder.stopRecording
        (Recorder.stopRecording Recorder.initModel
          (Except.ok (some "alice.wav")))
        (Except.ok none)).error = none ∧
    (Recorder.stopRecording
        (Recorder.stopRecording Recorder.initModel
          (Except.ok (some "alice.wav")))
        (Except.ok none)).state = Recorder.RecordingState.done :=
  C1_stop_idempotent sampleSession Recorder.initModel rfl (by decide) rfl
    (some "alice.wav") none

/-- Claim C7: on stop the backend returns one file path per track (so a
single-track system session yields exactly one path), the voice hook
stores the returned path list and reports it together with the elapsed
duration, and the single-track hook stores the single returned path with
its elapsed duration. -/
theorem C7_result_surface (s : Backend.Session) (md : Discord.Model)
    (mr : Recorder.Model) (paths : List String) (path : String)
    (hcap : s.capturing = true) (hp : path ≠ "") :
    (Backend.stop s).2
        = Except.ok (((Backend.stop s).1).tracks.map Backend.Track.path) ∧
    (((Backend.stop s).1).tracks.map Backend.Track.path).length
        = s.tracks.length ∧
    (Discord.stopRecording md (Except.ok paths)).savedPaths = paths ∧
    (Discord.stopRecording md (Except.ok paths)).duration = md.duration ∧
    (Discord.stopRecording md (Except.ok paths)).state
        = Discord.DiscordState.done ∧
    (Recorder.stopRecording mr (Except.ok (some path))).filePath
        = some path ∧
    (Recorder.stopRecording mr (Except.ok (some path))).duration
        = mr.duration := by
  refine ⟨?_, ?_, rfl, rfl, rfl, ?_, ?_⟩
  · simp [Backend.stop, hcap]
  · simp [Backend.stop, hcap]
  · exact recorder_stopOk_filePath mr path hp
  · exact recorder_stopOk_duration mr (some path)

/-- Witness for C7: a capturing single-track session, the sample connected
voice model, and the initial recorder model. -/
theorem C7_witness :
    (Backend.stop sampleSingleSession).2
        = Except.ok
            (((Backend.stop sampleSingleSession).1).tracks.map
              Backend.Track.path) ∧
    (((Backend.stop sampleSingleSession).1).tracks.map
        Backend.Track.path).length = sampleSingleSession.tracks.length ∧
    (Discord.stopRecording sampleConnected
        (Except.ok ["alice.flac", "bob.flac"])).savedPaths
        = ["alice.flac", "bob.flac"] ∧
    (Discord.stopRecording sampleConnected
        (Except.ok ["alice.flac", "bob.flac"])).duration
        = sampleConnected.duration ∧
    (Discord.stopRecording sampleConnected
        (Except.ok ["alice.flac", "bob.flac"])).state
        = Discord.DiscordState.done ∧
    (Recorder.stopRecording Recorder.initModel
        (Except.ok (some "discord-2026-02-01_120000.wav"))).filePath
        = some "discord-2026-02-01_120000.wav" ∧
    (Recorder.stopRecording Recorder.initModel
        (Except.ok (some "discord-2026-02-01_120000.wav"))).duration
        = Recorder.initModel.duration :=
  C7_result_surface sampleSingleSession sampleConnected Recorder.initModel
    ["alice.flac", "bob.flac"] "discord-2026-02-01_120000.wav" rfl
    (by decide)

/-- Claim C8: a successful start installs, in both hooks, a 1000 ms timer
that advances the elapsed-seconds counter and a 50 ms poller that reads
the backend status and stores its peak level — the status surface is
polled, not pushed. -/
theorem C8_polled_status (mr : Recorder.Model) (p : String)
    (md : Discord.Model) (fmt : Discord.AudioFormat)
    (hg : Discord.truthyStr md.selectedGuild = true)
    (hc : Discord.truthyStr md.selectedChannel = true)
    (s1 : Recorder.RecordingStatus) (s2 : Discord.DiscordStatus) :
    (Recorder.startRecording mr (Except.ok p)).timers
        = some { elapsedIntervalMs := 1000, levelIntervalMs := 50 } ∧
    (Discord.startRecording md fmt (Except.ok ())).timers
        = some { elapsedIntervalMs := 1000, levelIntervalMs := 50 } ∧
    (Recorder.levelTick mr s1).peakLevel = s1.peak_level ∧
    (Recorder.elapsedTick mr).duration = mr.duration + 1 ∧
    (Discord.levelTick md s2).peakLevel = s2.peak_level ∧
    (Discord.elapsedTick md).duration = md.duration + 1 := by
  refine ⟨rfl, ?_, rfl, rfl, rfl, rfl⟩
  simp [Discord.startRecording, hg, hc]

/-- Witness for C8: the initial recorder model and the sample connected
voice model, each given a successful start and one tick of each timer. -/
theorem C8_witness :
    (Recorder.startRecording Recorder.initModel
        (Except.ok "out.wav")).timers
        = some { elapsedIntervalMs := 1000, levelIntervalMs := 50 } ∧
    (Discord.startRecording sampleConnected Discord.AudioFormat.flac
        (Except.ok ())).timers
        = some { elapsedIntervalMs := 1000, levelIntervalMs := 50 } ∧
    (Recorder.levelTick Recorder.initModel
        { is_recording := true, peak_level := (1 : Rat) / 4 }).peakLevel
        = ({ is_recording := true,
             peak_level := (1 : Rat) / 4 } : Recorder.RecordingStatus).peak_level ∧
    (Recorder.elapsedTick Recorder.initModel).duration
        = Recorder.initModel.duration + 1 ∧
    (Discord.levelTick sampleConnected
        { connected := true, recording := true,
          peak_level := (1 : Rat) / 2 }).peakLevel
        = ({ connected := true, recording := true,
             peak_level := (1 : Rat) / 2 } : Discord.DiscordStatus).peak_level ∧
    (Discord.elapsedTick sampleConnected).duration
        = sampleConnected.duration + 1 :=
  C8_polled_status Recorder.initModel "out.wav" sampleConnected
    Discord.AudioFormat.flac rfl rfl
    { is_recording := true, peak_level := (1 : Rat) / 4 }
    { connected := true, recording := true, peak_level := (1 : Rat) / 2 }

/-- Claim C2: the SilenceGate hands audio to the wrapped encoder only
while Passing or when flushing the buffer because an at-or-above-threshold
block arrived: a below-threshold block never extends the written sequence;
in Passing an at-or-above-threshold block is appended; in Buffering an
at-or-above-threshold block flushes the pending frames and then the new
block; the first sound in AwaitingSound is written; and finalization emits
exactly the already-written blocks, so frames still buffered when the
track finalizes — trailing silence — are discarded and never persisted. -/
theorem C2_silence_gate (g : Gate.SilenceGate) (b : List Rat)
    (pending : List (List Rat)) :
    (Gate.blockPeak b < g.threshold →
      (Gate.write g b).written = g.written) ∧
    (g.gstate = Gate.GateState.passing → g.threshold ≤ Gate.blockPeak b →
      (Gate.write g b).written = g.written ++ [b]) ∧
    (g.gstate = Gate.GateState.buffering pending →
      g.threshold ≤ Gate.blockPeak b →
      (Gate.write g b).written = g.written ++ pending ++ [b]) ∧
    (g.gstate = Gate.GateState.awaitingSound →
      g.threshold ≤ Gate.blockPeak b →
      (Gate.write g b).written = g.written ++ [b]) ∧
    Gate.finalize g = g.written := by
  refine ⟨?_, ?_, ?_, ?_, rfl⟩
  · intro hlt
    have hn : ¬ g.threshold ≤ Gate.blockPeak b := not_le.mpr hlt
    rcases hg : g.gstate with _ | _ | pend <;> simp [Gate.write, hg, hn]
  · intro hg hge
    simp [Gate.write, hg, hge]
  · intro hg hge
    simp [Gate.write, hg, hge]
  · intro hg hge
    simp [Gate.write, hg, hge]

/-- Witness for C2: concrete gates at the default threshold fed a silent
block and a loud block, and a buffering gate finalized. -/
theorem C2_witness :
    (Gate.write sampleAwaitingGate [0]).written
        = sampleAwaitingGate.written ∧
    (Gate.write samplePassingGate [1 / 2]).written
        = samplePassingGate.written ++ [[1 / 2]] ∧
    (Gate.write sampleBufferingGate [1 / 2]).written
        = sampleBufferingGate.written ++ [[0]] ++ [[1 / 2]] ∧
    (Gate.write sampleAwaitingGate [1 / 2]).written
        = sampleAwaitingGate.written ++ [[1 / 2]] ∧
    Gate.finalize sampleBufferingGate = sampleBufferingGate.written :=
  ⟨(C2_silence_gate sampleAwaitingGate [0] []).1 (by
      norm_num [Gate.blockPeak, sampleAwaitingGate]),
   (C2_silence_gate samplePassingGate [1 / 2] []).2.1 rfl (by
      norm_num [Gate.blockPeak, samplePassingGate, abs_of_nonneg]),
   (C2_silence_gate sampleBufferingGate [1 / 2] [[0]]).2.2.1 rfl (by
      norm_num [Gate.blockPeak, sampleBufferingGate, abs_of_nonneg]),
   (C2_silence_gate sampleAwaitingGate [1 / 2] []).2.2.2.1 rfl (by
      norm_num [Gate.blockPeak, sampleAwaitingGate, abs_of_nonneg]),
   (C2_silence_gate sampleBufferingGate [0] [[0]]).2.2.2.2⟩

/-- While every completed poll interval still lies short of the limit, the
watchdog session has accumulated exactly that much time and audio and has
not stopped. -/
theorem watchdog_run_unstopped (maxDur pollMs : Nat) :
    ∀ k : Nat, k * pollMs < maxDur →
      Watchdog.run (Watchdog.fresh maxDur pollMs) k
        = { maxDurMs := maxDur, pollMs := pollMs, elapsedMs := k * pollMs,
            writtenMs := k * pollMs, stopped := false } := by
  intro k
  induction k with
  | zero => intro _; simp [Watchdog.run, Watchdog.fresh]
  | succ n ih =>
      intro h
      have hn : n * pollMs < maxDur :=
        lt_of_le_of_lt (Nat.mul_le_mul_right pollMs (Nat.le_succ n)) h
      have hc : ¬ maxDur ≤ n * pollMs + pollMs := by
        have hs : (n + 1) * pollMs = n * pollMs + pollMs := by ring
        omega
      have hs : (n + 1) * pollMs = n * pollMs + pollMs := by ring
      rw [Watchdog.run, ih hn]
      simp [Watchdog.poll, hc, hs]

/-- Claim C3: a session with a 5-minute (300000 ms) limit fed an unbounded
block stream is still running at the last poll before the mark, stops at
the first poll at or past the mark — within one poll interval of the
5-minute mark — and the audio written (the file duration) equals the
elapsed time at the stop, hence is below 5 minutes plus one poll
interval. -/
theorem C3_watchdog_five_minutes (pollMs n : Nat)
    (hlt : n * pollMs < 300000) (hge : 300000 ≤ (n + 1) * pollMs) :
    (Watchdog.run (Watchdog.fresh 300000 pollMs) n).stopped = false ∧
    (Watchdog.run (Watchdog.fresh 300000 pollMs) (n + 1)).stopped = true ∧
    300000 ≤ (Watchdog.run (Watchdog.fresh 300000 pollMs) (n + 1)).elapsedMs ∧
    (Watchdog.run (Watchdog.fresh 300000 pollMs) (n + 1)).elapsedMs
        < 300000 + pollMs ∧
    (Watchdog.run (Watchdog.fresh 300000 pollMs) (n + 1)).writtenMs
        = (Watchdog.run (Watchdog.fresh 300000 pollMs) (n + 1)).elapsedMs := by
  have hrun := watchdog_run_unstopped 300000 pollMs n hlt
  have hs : (n + 1) * pollMs = n * pollMs + pollMs := by ring
  have hc : 300000 ≤ n * pollMs + pollMs := by omega
  have hstep : Watchdog.run (Watchdog.fresh 300000 pollMs) (n + 1)
      = { maxDurMs := 300000, pollMs := pollMs,
          elapsedMs := (n + 1) * pollMs, writtenMs := (n + 1) * pollMs,
          stopped := true } := by
    rw [Watchdog.run, hrun]
    simp [Watchdog.poll, hc, hs]
  have hub : (n + 1) * pollMs < 300000 + pollMs := by omega
  rw [hrun, hstep]
  exact ⟨rfl, rfl, hge, hub, rfl⟩

/-- Witness for C3: a 1000 ms poll interval; the watchdog is still running
after poll 299 and has stopped by poll 300, at 300000 ms elapsed. -/
theorem C3_witness :
    (Watchdog.run (Watchdog.fresh 300000 1000) 299).stopped = false ∧
    (Watchdog.run (Watchdog.fresh 300000 1000) 300).stopped = true ∧
    300000 ≤ (Watchdog.run (Watchdog.fresh 300000 1000) 300).elapsedMs ∧
    (Watchdog.run (Watchdog.fresh 300000 1000) 300).elapsedMs
        < 300000 + 1000 ∧
    (Watchdog.run (Watchdog.fresh 300000 1000) 300).writtenMs
        = (Watchdog.run (Watchdog.fresh 300000 1000) 300).elapsedMs :=
  C3_watchdog_five_minutes 1000 299 (by norm_num) (by norm_num)

/-- Injecting faults into participant i's packets leaves every other
participant's demultiplexed packet sequence unchanged. -/
theorem voice_filter_inject (i j : Nat) (hij : j ≠ i)
    {xs ys : List Voice.VoicePacket} (h : Voice.InjectFault i xs ys) :
    Voice.participantPackets xs j = Voice.participantPackets ys j := by
  induction h with
  | nil => rfl
  | keep p h ih =>
      simp only [Voice.participantPackets, List.filter_cons] at *
      rw [ih]
  | corrupt p hp h ih =>
      have hsk : (p.ssrc == j) = false := by
        simp [hp, Ne.symm hij]
      simp only [Voice.participantPackets, List.filter_cons, hsk] at *
      exact ih
  | drop p hp h ih =>
      have hsk : (p.ssrc == j) = false := by
        simp [hp, Ne.symm hij]
      simp only [Voice.participantPackets, List.filter_cons, hsk] at *
      exact ih

/-- Claim C6: participants are decoded independently.  If one run differs
from another only by decode failures or packet loss injected into
participant i's stream, then every other participant's decoded frame
sequence, finalized file contents and duration are identical across the
two runs. -/
theorem C6_participant_isolation (stream1 stream2 : List Voice.VoicePacket)
    (i j : Nat) (hf : Voice.InjectFault i stream1 stream2) (hij : j ≠ i) :
    Voice.participantTrack stream1 j = Voice.participantTrack stream2 j ∧
    Voice.trackFile stream1 j = Voice.trackFile stream2 j ∧
    Voice.trackDurationSamples stream1 j
        = Voice.trackDurationSamples stream2 j := by
  have hp := voice_filter_inject i j hij hf
  have ht : Voice.participantTrack stream1 j
      = Voice.participantTrack stream2 j := by
    unfold Voice.participantTrack
    rw [hp]
  have hfile : Voice.trackFile stream1 j = Voice.trackFile stream2 j := by
    unfold Voice.trackFile
    rw [ht]
  exact ⟨ht, hfile, by unfold Voice.trackDurationSamples; rw [hfile]⟩

/-- Witness for C6: in a three-participant run, corrupting participant 2's
packet leaves participants 1 and 3 with identical tracks, files and
durations. -/
theorem C6_witness :
    (Voice.participantTrack sampleRunA 1 = Voice.participantTrack sampleRunB 1 ∧
     Voice.trackFile sampleRunA 1 = Voice.trackFile sampleRunB 1 ∧
     Voice.trackDurationSamples sampleRunA 1
        = Voice.trackDurationSamples sampleRunB 1) ∧
    (Voice.participantTrack sampleRunA 3 = Voice.participantTrack sampleRunB 3 ∧
     Voice.trackFile sampleRunA 3 = Voice.trackFile sampleRunB 3 ∧
     Voice.trackDurationSamples sampleRunA 3
        = Voice.trackDurationSamples sampleRunB 3) :=
  ⟨C6_participant_isolation sampleRunA sampleRunB 2 1
    (Voice.InjectFault.keep _
      (Voice.InjectFault.corrupt _ rfl
        (Voice.InjectFault.keep _
          (Voice.InjectFault.keep _ Voice.InjectFault.nil))))
    (by decide),
   C6_participant_isolation sampleRunA sampleRunB 2 3
    (Voice.InjectFault.keep _
      (Voice.InjectFault.corrupt _ rfl
        (Voice.InjectFault.keep _
          (Voice.InjectFault.keep _ Voice.InjectFault.nil))))
    (by decide)⟩

/-- Claim C9: for every keydown handled by `useKeyboardShortcuts`, the
record action fires only when no recording is active and recording is
permitted; the stop action fires only while a recording is active; and an
Escape keydown during an active recording (with the listener attached and
the target not a form field) always fires the stop action, whatever the
configured stop shortcut is. -/
theorem C9_shortcut_guards (disabled : Bool) (cfg : Shortcuts.ShortcutConfig)
    (isRecording canRecord : Bool) (e : Shortcuts.KeyEvent) :
    (Shortcuts.SAction.record
        ∈ Shortcuts.handleKeyDown disabled cfg isRecording canRecord e →
      isRecording = false ∧ canRecord = true) ∧
    (Shortcuts.SAction.stop
        ∈ Shortcuts.handleKeyDown disabled cfg isRecording canRecord e →
      isRecording = true) ∧
    (disabled = false → Shortcuts.isFormTag e.targetTag = false →
      e.key = "Escape" → isRecording = true →
      Shortcuts.SAction.stop
        ∈ Shortcuts.handleKeyDown disabled cfg isRecording canRecord e) := by
  refine ⟨?_, ?_, ?_⟩
  · intro hmem
    by_cases hd : disabled = true
    · simp [Shortcuts.handleKeyDown, hd] at hmem
    · by_cases hform : Shortcuts.isFormTag e.targetTag = true
      · simp [Shortcuts.handleKeyDown, hd, hform] at hmem
      · by_cases hc1 : (Shortcuts.matchesShortcut e cfg.record
            && (!isRecording && canRecord)) = true
        · rw [Bool.and_eq_true, Bool.and_eq_true, Bool.not_eq_true'] at hc1
          exact ⟨hc1.2.1, hc1.2.2⟩
        · by_cases hc2 : (Shortcuts.matchesShortcut e cfg.stop
              && isRecording) = true <;>
          by_cases hc3 : (e.key == "Escape" && isRecording) = true <;>
            simp [Shortcuts.handleKeyDown, hd, hform, hc1, hc2, hc3] at hmem
  · intro hmem
    by_cases hd : disabled = true
    · simp [Shortcuts.handleKeyDown, hd] at hmem
    · by_cases hform : Shortcuts.isFormTag e.targetTag = true
      · simp [Shortcuts.handleKeyDown, hd, hform] at hmem
      · by_cases hrec : isRecording = true
        · exact hrec
        · have hr : isRecording = false := Bool.eq_false_iff.mpr hrec
          have hc2 : (Shortcuts.matchesShortcut e cfg.stop
              && isRecording) = false := by simp [hr]
          have hc3 : (e.key == "Escape" && isRecording) = false := by
            simp [hr]
          by_cases hc1 : (Shortcuts.matchesShortcut e cfg.record
              && (!isRecording && canRecord)) = true <;>
            simp [Shortcuts.handleKeyDown, hd, hform, hc1, hc2, hc3] at hmem
  · intro hd hform hkey hrec
    have hc3 : (e.key == "Escape" && isRecording) = true := by
      simp [hkey, hrec]
    simp [Shortcuts.handleKeyDown, hd, hform, hc3]

/-- Witness for C9: with the default shortcuts and the listener attached,
Escape during a recording fires stop; Ctrl+R while idle and permitted
fires record; Ctrl+S while recording fires stop. -/
theorem C9_witness :
    Shortcuts.SAction.stop
      ∈ Shortcuts.handleKeyDown false Shortcuts.defaultShortcuts true true
          escEvent ∧
    Shortcuts.SAction.record
      ∈ Shortcuts.handleKeyDown false Shortcuts.defaultShortcuts false true
          ctrlREvent ∧
    Shortcuts.SAction.stop
      ∈ Shortcuts.handleKeyDown false Shortcuts.defaultShortcuts true true
          ctrlSEvent :=
  ⟨(C9_shortcut_guards false Shortcuts.defaultShortcuts true true
      escEvent).2.2 rfl rfl rfl rfl,
   by decide, by decide⟩

end DiscRec
